import Mathlib

/-!
Shallow embedding of the SmartMedicare Express application (app.js plus the
Mongoose model files) and verification of its natural-language specification.

Conventions of the embedding:
- MongoDB collections become Lists; ObjectId values become Strings.
- A JS value that may be `undefined` or `null` becomes an `Option`.
- `parseInt` becomes `parseIntJS : String → Option Int`, `none` playing the
  role of NaN; comparisons with NaN are false, as in JS.
- Handlers become pure functions from (database, request data) to a response,
  paired with the updated database when the handler writes.
- A handler body that dereferences a possibly-null value runs in `Except`:
  `Except.error` models an uncaught thrown TypeError.
-/

namespace SmartMedicare

/-! ### JS string and number primitives -/

/-- Does the character list start with the given pattern (second argument
starts with the first)? Used to embed `String.prototype.includes`. -/
def beginsWith : List Char → List Char → Bool
  | [], _ => true
  | _ :: _, [] => false
  | p :: ps, c :: cs => p == c && beginsWith ps cs

/-- Does the character list contain the pattern as a contiguous run? -/
def hasSub (pat : List Char) : List Char → Bool
  | [] => beginsWith pat []
  | c :: cs => beginsWith pat (c :: cs) || hasSub pat cs

/-- Embedding of JS `s.includes(pat)`. -/
def jsIncludes (s pat : String) : Bool :=
  hasSub pat.data s.data

/-- JS whitespace characters stripped by `parseInt`. -/
def isJsSpace (c : Char) : Bool :=
  c == ' ' || c == '\t' || c == '\n' || c == '\r' || c == '\x0b' || c == '\x0c'

/-- Decimal digit value of a character, by code point (48 is the digit 0). -/
def decVal (c : Char) : Option Nat :=
  let n := c.toNat
  if 48 ≤ n ∧ n ≤ 57 then some (n - 48) else none

/-- Hexadecimal digit value of a character, by code point (97 is the letter
a, 65 the letter A). -/
def hexVal (c : Char) : Option Nat :=
  let n := c.toNat
  if 48 ≤ n ∧ n ≤ 57 then some (n - 48)
  else if 97 ≤ n ∧ n ≤ 102 then some (n - 97 + 10)
  else if 65 ≤ n ∧ n ≤ 70 then some (n - 65 + 10)
  else none

/-- Accumulate the longest leading run of valid digits, left to right. -/
def digitsToNat (base : Nat) (dv : Char → Option Nat) : List Char → Nat → Nat
  | [], acc => acc
  | c :: cs, acc =>
    match dv c with
    | some d => digitsToNat base dv cs (acc * base + d)
    | none => acc

/-- Parse the leading digit run; `none` when there is not a single digit. -/
def parseIntCore (dv : Char → Option Nat) (base : Nat) : List Char → Option Nat
  | [] => none
  | c :: rest =>
    match dv c with
    | some d => some (digitsToNat base dv rest d)
    | none => none

/-- Embedding of JS `parseInt(s)` with no radix argument: skip whitespace,
optional sign, an optional `0x`/`0X` hex marker, then the longest digit run;
`none` models NaN. -/
def parseIntJS (s : String) : Option Int :=
  let cs := s.data.dropWhile isJsSpace
  let signed : Int × List Char :=
    match cs with
    | '-' :: rest => (-1, rest)
    | '+' :: rest => (1, rest)
    | _ => (1, cs)
  let body : Nat × (Char → Option Nat) × List Char :=
    match signed.2 with
    | '0' :: 'x' :: rest => (16, hexVal, rest)
    | '0' :: 'X' :: rest => (16, hexVal, rest)
    | _ => (10, decVal, signed.2)
  (parseIntCore body.2.1 body.1 body.2.2).map (fun n => signed.1 * (n : Int))

/-- JS `a > b` where `a` may be NaN: every comparison with NaN is false. -/
def jsGt : Option Int → Int → Bool
  | none, _ => false
  | some a, b => decide (a > b)

/-- JS `x || d` for an optional string: `undefined`, `null` and the empty
string are falsy and yield the default. -/
def jsOrString : Option String → String → String
  | none, d => d
  | some s, d => if s = "" then d else s

/-- JS `String(x)` on an optional ObjectId reference: `String(undefined)`
is the text "undefined". -/
def jsString : Option String → String
  | none => "undefined"
  | some s => s

/-- Embedding of `mongoose.Types.ObjectId.isValid` on a string argument:
a 24-character hex string, or any 12-character string (12 bytes). -/
def isValidObjectId (s : String) : Bool :=
  s.length == 12 || (s.length == 24 && s.data.all (fun c => (hexVal c).isSome))

/-! ### Data model (the four Mongoose schemas) -/

/-- `patientSchema.vitals` sub-record; every field free text, possibly absent. -/
structure Vitals where
  bp : Option String
  sugar : Option String
  weight : Option String
  temperature : Option String
deriving DecidableEq, Repr

/-- `Patient` document (models/Patient.js). -/
structure Patient where
  id : String
  patientCode : String
  name : String
  medicines : List String
  vitals : Option Vitals
  assignedDoctor : Option String
deriving DecidableEq, Repr

/-- `User` document (models/User.js): email, hashed password, role,
reference to one Patient. -/
structure User where
  id : String
  email : String
  password : String
  role : String
  patient : Option String
deriving DecidableEq, Repr

/-- `Medicine` document (models/Medicine.js). -/
structure Medicine where
  id : String
  name : String
  dosesRemaining : Int
  frequency : String
  reason : String
  patient : Option String
deriving DecidableEq, Repr

/-- Embedded medicine line of a prescription (models/Prescription.js). -/
structure PrescriptionLine where
  name : String
  dosage : Int
  days : Int
deriving DecidableEq, Repr

/-- `Prescription` document (models/Prescription.js); `date` is a timestamp. -/
structure Prescription where
  id : String
  patient : Option String
  doctor : Option String
  medicines : List PrescriptionLine
  notes : String
  date : Nat
deriving DecidableEq, Repr

/-- The four MongoDB collections. -/
structure DB where
  users : List User
  patients : List Patient
  medicines : List Medicine
  prescriptions : List Prescription
deriving DecidableEq, Repr

/-- `Patient.findById` / `findOne({_id: i})`. -/
def findPatient (db : DB) (i : String) : Option Patient :=
  db.patients.find? (fun p => p.id == i)

/-- `Medicine.findById`. -/
def findMedicine (db : DB) (i : String) : Option Medicine :=
  db.medicines.find? (fun m => m.id == i)

/-- `User.findOne({email})`. -/
def findUserByEmail (db : DB) (email : String) : Option User :=
  db.users.find? (fun u => u.email == email)

/-- `Patient.findOne({patientCode})`. -/
def findPatientByCode (db : DB) (code : String) : Option Patient :=
  db.patients.find? (fun p => p.patientCode == code)

/-- `Prescription.find({patient: pid})`, in stored order. -/
def prescriptionsOf (db : DB) (pid : String) : List Prescription :=
  db.prescriptions.filter (fun pr => pr.patient == some pid)

/-- Insert into a list kept in descending date order. -/
def insertByDateDesc (pr : Prescription) : List Prescription → List Prescription
  | [] => [pr]
  | q :: qs => if q.date ≤ pr.date then pr :: q :: qs else q :: insertByDateDesc pr qs

/-- `.sort({date: -1})`: sort prescriptions by descending date. -/
def sortByDateDesc : List Prescription → List Prescription
  | [] => []
  | p :: ps => insertByDateDesc p (sortByDateDesc ps)

/-- Generic handler response; `render` carries the view payload. -/
inductive HResp (α : Type) where
  | render (data : α)
  | redirect (loc : String)
  | status (code : Nat) (body : String)
  | send (body : String)
deriving DecidableEq, Repr

/-! ### Route handlers (app.js) -/

/-- Outcome of POST /signup, as signalled by flash message and redirect. -/
inductive SignupOutcome where
  | duplicateEmail
  | duplicatePatientCode
  | patientNotFound
  | success
deriving DecidableEq, Repr

/-- POST /signup (app.js). `genPatientId` and `genUserId` stand for the
ObjectIds the database would generate for the records created here. -/
def signup (db : DB) (genPatientId genUserId : String)
    (email password role name patientId : String) : SignupOutcome × DB :=
  match findUserByEmail db email with
  | some _ => (.duplicateEmail, db)
  | none =>
    if role == "patient" then
      match findPatientByCode db patientId with
      | some _ => (.duplicatePatientCode, db)
      | none =>
        let patient : Patient :=
          { id := genPatientId, patientCode := patientId, name := name,
            medicines := [], vitals := none, assignedDoctor := none
          }
        let db1 : DB := { db with patients := db.patients ++ [patient] }
        let user : User :=
          { id := genUserId, email := email, password := password, role := role,
            patient := some patient.id }
        (.success, { db1 with users := db1.users ++ [user] })
    else
      match findPatientByCode db patientId with
      | none => (.patientNotFound, db)
      | some patient =>
        let user : User :=
          { id := genUserId, email := email, password := password, role := role,
            patient := some patient.id }
        (.success, { db with users := db.users ++ [user] })

/-- GET /patient/:id (app.js), paired with the number of database lookups
the request performed. -/
def patientDetailHandler (db : DB) (id : String) : HResp Patient × Nat :=
  if id = "" || id = "undefined" then (.redirect "/dashboard", 0)
  else if !(isValidObjectId id) then (.status 400 "Invalid patient ID", 0)
  else
    match findPatient db id with
    | none => (.status 404 "Patient not found", 1)
    | some patient => (.render patient, 1)

/-- The medicine query of GET /doctor/dashboard:
`Medicine.find({ _id: { $in: patient.medicines } })`. -/
def dashboardMedicines (db : DB) (patient : Patient) : List Medicine :=
  db.medicines.filter (fun m => patient.medicines.contains m.id)

/-- `patient.save()` after the dashboard sets `patient.assignedDoctor`:
persists the modified field on the document with that id. -/
def saveAssignedDoctor (db : DB) (pid doctorId : String) : DB :=
  { db with
    patients := db.patients.map (fun p =>
      if p.id == pid then { p with assignedDoctor := some doctorId } else p) }

/-- GET /doctor/dashboard (app.js): resolve the doctor's linked patient,
auto-assign the doctor when `assignedDoctor` is unset, load medicines,
render. Returns the response and the database after the request. -/
def doctorDashboardHandler (db : DB) (user : User) :
    HResp (Patient × List Medicine) × DB :=
  match user.patient.bind (fun pid => findPatient db pid) with
  | none => (.status 404 "Patient not found", db)
  | some patient =>
    if patient.assignedDoctor.isNone then
      let patient2 : Patient := { patient with assignedDoctor := some user.id }
      let db2 := saveAssignedDoctor db patient.id user.id
      (.render (patient2, dashboardMedicines db2 patient2), db2)
    else
      (.render (patient, dashboardMedicines db patient), db)

/-- GET /patient/:id/medicines (app.js). The body runs in `Except`:
`Medicine.find({ patient: patient._id })` dereferences `patient` before the
null check, so a missing patient throws (there is no try/catch here). -/
def patientMedicinesHandler (db : DB) (pid : String) :
    Except String (HResp (Patient × List Medicine)) := do
  let patient := findPatient db pid
  let pid2 ← match patient with
    | none => Except.error "TypeError: cannot read _id of null"
    | some p => Except.ok p.id
  let medicines := db.medicines.filter (fun m => m.patient == some pid2)
  match patient with
  | none => return .status 404 "Patient not found"
  | some p => return .render (p, medicines)

/-- Form body of the medicine create/update routes. -/
structure MedicineForm where
  name : String
  dosesRemaining : Int
  frequency : String
  reason : String
deriving DecidableEq, Repr

/-- POST /doctor/patient/:id/medicines (app.js): build a Medicine whose
patient reference is the path id, save, redirect (template literal, so the
id IS interpolated here). `newId` is the generated ObjectId. -/
def createMedicineHandler (db : DB) (newId pid : String) (form : MedicineForm) :
    HResp Unit × DB :=
  let newMed : Medicine :=
    { id := newId, name := form.name, dosesRemaining := form.dosesRemaining,
      frequency := form.frequency, reason := form.reason, patient := some pid }
  (.redirect ("/doctor/patient/" ++ pid ++ "/medicines"),
   { db with medicines := db.medicines ++ [newMed] })

/-- The redirect target of the medicine update and delete routes: a
single-quoted JS string, so the template placeholder is NOT interpolated
and the literal text (dollar, brace, `req.params.id`, brace) is sent. -/
def literalMedRedirect : String := "/doctor/patient/$\x7breq.params.id\x7d/medicines"

/-- POST /doctor/medicine/:id/update (app.js): load by id, overwrite the four
mutable fields, save, redirect to the literal template string; a missing
medicine makes the field writes throw, caught into a 500. -/
def updateMedicineHandler (db : DB) (mid : String) (form : MedicineForm) :
    HResp Unit × DB :=
  match findMedicine db mid with
  | none => (.status 500 "Failure to update Medicine", db)
  | some med =>
    let med2 : Medicine :=
      { med with name := form.name, dosesRemaining := form.dosesRemaining,
                 frequency := form.frequency, reason := form.reason }
    (.redirect literalMedRedirect,
     { db with medicines := db.medicines.map (fun m => if m.id == mid then med2 else m) })

/-- POST /doctor/medicine/:id/delete (app.js): `findByIdAndDelete`, then
redirect to the same literal template string. -/
def deleteMedicineHandler (db : DB) (mid : String) : HResp Unit × DB :=
  (.redirect literalMedRedirect,
   { db with medicines := db.medicines.filter (fun m => !(m.id == mid)) })

/-- GET /doctor/patient/:id/prescriptions (app.js): ObjectId validity check,
patient lookup, ownership check, then list sorted by descending date. -/
def prescriptionsListHandler (db : DB) (user : User) (pid : String) :
    HResp (Patient × List Prescription) :=
  if !(isValidObjectId pid) then .send "InValid patient Id"
  else
    match findPatient db pid with
    | none => .send "Patient not found"
    | some patient =>
      if !(jsString user.patient == patient.id) then .send "Unauthorized"
      else .render (patient, sortByDateDesc (prescriptionsOf db patient.id))

/-- POST /doctor/patient/:id/prescriptions (app.js): build a Prescription
from the path id, the session doctor and the form, save, redirect.
There is no ownership check on this route. `newId` is the generated
ObjectId and `now` the creation timestamp. -/
def createPrescriptionHandler (db : DB) (newId : String) (now : Nat)
    (user : User) (pid : String) (lines : List PrescriptionLine) (notes : String) :
    HResp Unit × DB :=
  let newPrescription : Prescription :=
    { id := newId, patient := some pid, doctor := some user.id,
      medicines := lines, notes := notes, date := now }
  (.redirect ("/doctor/patient/" ++ pid ++ "/prescriptions"),
   { db with prescriptions := db.prescriptions ++ [newPrescription] })

/-! ### Risk scoring (GET /doctor/patient/:id/ai-insights) -/

/-- Result record rendered by the AI-insights view. -/
structure AIResult where
  score : Int
  risks : List String
  suggestions : List String
deriving DecidableEq, Repr

/-- The risk-scoring block of the AI-insights handler, transcribed
sequentially: each `let` re-binding mirrors one mutation of the JS locals
`score`, `risks`, `suggestions`. -/
def aiScore (bp sugarText : String) (prescriptionCount : Nat) : AIResult :=
  let score : Int := 100
  let risks : List String := []
  let suggestions : List String := []
  let sugar := parseIntJS sugarText
  let step1 : List String × Int :=
    if jsIncludes bp "140" || jsIncludes bp "150" then
      (risks ++ ["High Blood Pressure"], score - 20)
    else (risks, score)
  let step2 : List String × Int :=
    if jsGt sugar 140 then (step1.1 ++ ["High Blood Sugar"], step1.2 - 20)
    else step1
  let step3 : List String × Int :=
    if prescriptionCount > 3 then
      (step2.1 ++ ["Long-term medication dependency"], step2.2 - 10)
    else step2
  let risks2 := if step3.1.length = 0 then step3.1 ++ ["No major risks detected"] else step3.1
  let score2 := step3.2
  let sug1 := if score2 < 80 then suggestions ++ ["Lifestyle improvement recommended"] else suggestions
  let sug2 := if risks2.contains "High Blood Pressure" then sug1 ++ ["Reduce salt intake"] else sug1
  let sug3 := if risks2.contains "High Blood Sugar" then sug2 ++ ["Avoid sugar and carbs"] else sug2
  let sug4 := if sug3.length = 0 then sug3 ++ ["Keep following current treatment"] else sug3
  ⟨score2, risks2, sug4⟩

/-- `const bp = patient.vitals?.bp || ""` of the AI-insights handler. -/
def vitalsBP (v : Option Vitals) : String :=
  jsOrString (v.bind Vitals.bp) ""

/-- `parseInt(patient.vitals?.sugar || "0")` takes this string argument. -/
def vitalsSugar (v : Option Vitals) : String :=
  jsOrString (v.bind Vitals.sugar) "0"

/-- The pure computation of the AI-insights handler as a function of the
vitals sub-record and the prescription count. -/
def aiCompute (v : Option Vitals) (prescriptionCount : Nat) : AIResult :=
  aiScore (vitalsBP v) (vitalsSugar v) prescriptionCount

/-- GET /doctor/patient/:id/ai-insights (app.js): patient lookup, ownership
check, prescription count, risk scoring, render. -/
def aiInsightsHandler (db : DB) (user : User) (pid : String) :
    HResp (Patient × AIResult) :=
  match findPatient db pid with
  | none => .send "Patient not found"
  | some patient =>
    if !(jsString user.patient == patient.id) then .send "Unauthorized"
    else
      let prescriptions := prescriptionsOf db patient.id
      .render (patient, aiCompute patient.vitals prescriptions.length)

/-- Declarative rendering of the scoring steps as the specification states
them (section 4.8): the score is 100 minus a deduction per triggered risk,
the risk list is the concatenation of the triggered risk texts with a
default when empty, and likewise for the suggestions. Used to compare the
transcribed handler code against the stated steps. -/
def aiSpec (bp sugarText : String) (n : Nat) : AIResult :=
  let bpRisk := jsIncludes bp "140" || jsIncludes bp "150"
  let sugarRisk := jsGt (parseIntJS sugarText) 140
  let medRisk : Bool := decide (n > 3)
  let score : Int := 100 - (if bpRisk then 20 else 0) - (if sugarRisk then 20 else 0)
      - (if medRisk then 10 else 0)
  let baseRisks := (if bpRisk then ["High Blood Pressure"] else [])
      ++ (if sugarRisk then ["High Blood Sugar"] else [])
      ++ (if medRisk then ["Long-term medication dependency"] else [])
  let risks := if baseRisks.isEmpty then ["No major risks detected"] else baseRisks
  let baseSugs := (if score < 80 then ["Lifestyle improvement recommended"] else [])
      ++ (if bpRisk then ["Reduce salt intake"] else [])
      ++ (if sugarRisk then ["Avoid sugar and carbs"] else [])
  let suggestions := if baseSugs.isEmpty then ["Keep following current treatment"] else baseSugs
  ⟨score, risks, suggestions⟩

/-- Is the response a 400-class (client error) status? -/
def is400Class {α : Type} : HResp α → Bool
  | .status c _ => 400 ≤ c && c < 500
  | _ => false

/-- Is the response a plain-text send (the form every "Unauthorized" and
"Patient not found" rejection of the doctor routes takes)? -/
def isSend {α : Type} : HResp α → Bool
  | .send _ => true
  | _ => false

/-! ### Helper lemmas -/

/-- The transcribed scoring code agrees with the declarative reading of the
stated steps on every input. -/
theorem aiScore_eq_spec (bp sugarText : String) (n : Nat) :
    aiScore bp sugarText n = aiSpec bp sugarText n := by
  unfold aiScore aiSpec
  cases h1 : (jsIncludes bp "140" || jsIncludes bp "150") <;>
    cases h2 : jsGt (parseIntJS sugarText) 140 <;>
      by_cases h3 : n > 3 <;>
        simp [h1, h2, h3]

/-- The scoring output depends on the sugar text only through the comparison
of its parse with 140. -/
theorem aiScore_congr_sugar (bp s1 s2 : String) (n : Nat)
    (h : jsGt (parseIntJS s1) 140 = jsGt (parseIntJS s2) 140) :
    aiScore bp s1 n = aiScore bp s2 n := by
  unfold aiScore
  dsimp only
  rw [h]

/-! ### Claim theorems -/

/-- C1: the risk-scoring routine of the AI-insights handler is a pure
deterministic function of (bp text, sugar text, prescription count) computed
exactly by the stated steps (it agrees with the declarative reading of those
steps on every input); in particular bp "150/90", sugar "150" and 4
prescriptions yield score 50 with all three risks and all three suggestions,
and bp "120/80", sugar "90" and 0 prescriptions yield score 100 with the
default risk and suggestion texts. -/
theorem c1_risk_scoring :
    (∀ bp sugarText n, aiScore bp sugarText n = aiSpec bp sugarText n)
    ∧ aiScore "150/90" "150" 4 =
        ⟨50, ["High Blood Pressure", "High Blood Sugar", "Long-term medication dependency"],
         ["Lifestyle improvement recommended", "Reduce salt intake", "Avoid sugar and carbs"]⟩
    ∧ aiScore "120/80" "90" 0 =
        ⟨100, ["No major risks detected"], ["Keep following current treatment"]⟩ :=
  ⟨aiScore_eq_spec, by decide, by decide⟩

/-- C5: the sugar vital is parsed as an integer and an absent or unparsable
sugar string leads to the same scoring output as the literal string "0"
(an absent or empty vital is replaced by "0" before parsing; an unparsable
one parses to NaN, which compares with 140 exactly as 0 does). -/
theorem c5_sugar_default (v : Option Vitals) (n : Nat)
    (h : v.bind Vitals.sugar = none
         ∨ ∃ s, v.bind Vitals.sugar = some s ∧ parseIntJS s = none) :
    aiCompute v n = aiScore (vitalsBP v) "0" n := by
  unfold aiCompute vitalsSugar
  rcases h with h | ⟨s, hs, hparse⟩
  · rw [h]
    simp [jsOrString]
  · rw [hs]
    by_cases he : s = ""
    · rw [he]
      simp [jsOrString]
    · have hred : jsOrString (some s) "0" = s := by
        show (if s = "" then "0" else s) = s
        rw [if_neg he]
      rw [hred]
      exact aiScore_congr_sugar _ _ _ _ (by rw [hparse]; decide)

/-- Witness for C5 at the concrete unparsable sugar text "abc". -/
theorem c5_sugar_default_witness :
    aiCompute (some ⟨some "120/80", some "abc", none, none⟩) 0
      = aiScore (vitalsBP (some ⟨some "120/80", some "abc", none, none⟩)) "0" 0 :=
  c5_sugar_default (some ⟨some "120/80", some "abc", none, none⟩) 0
    (Or.inr ⟨"abc", rfl, by decide⟩)

/-- C2: a signup with an already-registered email fails with DuplicateEmail;
otherwise a patient-role signup whose patientId (patientCode) already exists
fails with DuplicatePatientCode, and a doctor-role signup whose patientId
matches no Patient fails with PatientNotFound; in each failure case the
database — in particular the User collection — is unchanged. -/
theorem c2_signup_failures (db : DB) (gp gu email pw role name pid : String) :
    ((∃ u ∈ db.users, u.email = email) →
      signup db gp gu email pw role name pid = (.duplicateEmail, db))
    ∧ ((∀ u ∈ db.users, u.email ≠ email) → role = "patient" →
        (∃ p ∈ db.patients, p.patientCode = pid) →
        signup db gp gu email pw role name pid = (.duplicatePatientCode, db))
    ∧ ((∀ u ∈ db.users, u.email ≠ email) → role = "doctor" →
        (∀ p ∈ db.patients, p.patientCode ≠ pid) →
        signup db gp gu email pw role name pid = (.patientNotFound, db)) := by
  refine ⟨?_, ?_, ?_⟩
  · rintro ⟨u, hu, he⟩
    have hpu : (u.email == email) = true := by simp [he]
    have hsome : (db.users.find? (fun u => u.email == email)).isSome :=
      List.find?_isSome.mpr ⟨u, hu, hpu⟩
    obtain ⟨x, hx⟩ := Option.isSome_iff_exists.mp hsome
    unfold signup
    rw [show findUserByEmail db email = some x from hx]
  · intro hnone hrole hcode
    have h1 : findUserByEmail db email = none :=
      List.find?_eq_none.mpr (fun u hu => by simpa using hnone u hu)
    obtain ⟨p, hp, hc⟩ := hcode
    have hpc : (p.patientCode == pid) = true := by simp [hc]
    have hsome : (db.patients.find? (fun p => p.patientCode == pid)).isSome :=
      List.find?_isSome.mpr ⟨p, hp, hpc⟩
    obtain ⟨x, hx⟩ := Option.isSome_iff_exists.mp hsome
    unfold signup
    rw [h1]
    simp only [hrole]
    rw [show findPatientByCode db pid = some x from hx]
    rfl
  · intro hnone hrole hcode
    have h1 : findUserByEmail db email = none :=
      List.find?_eq_none.mpr (fun u hu => by simpa using hnone u hu)
    have h2 : findPatientByCode db pid = none :=
      List.find?_eq_none.mpr (fun p hp => by simpa using hcode p hp)
    unfold signup
    rw [h1, hrole]
    simp only [h2]
    rfl

/-- Witness for C2: each failure arm at a concrete database and request. -/
theorem c2_signup_failures_witness :
    signup ⟨[⟨"u1", "a@x", "pw", "patient", none⟩], [], [], []⟩
        "p9" "u9" "a@x" "pw" "patient" "nm" "PC1"
      = (.duplicateEmail, ⟨[⟨"u1", "a@x", "pw", "patient", none⟩], [], [], []⟩)
    ∧ signup ⟨[], [⟨"p1", "PC1", "nm", [], none, none⟩], [], []⟩
        "p9" "u9" "b@x" "pw" "patient" "nm" "PC1"
      = (.duplicatePatientCode, ⟨[], [⟨"p1", "PC1", "nm", [], none, none⟩], [], []⟩)
    ∧ signup ⟨[], [], [], []⟩ "p9" "u9" "c@x" "pw" "doctor" "nm" "PC1"
      = (.patientNotFound, ⟨[], [], [], []⟩) := by
  refine ⟨?_, ?_, ?_⟩
  · exact (c2_signup_failures _ "p9" "u9" "a@x" "pw" "patient" "nm" "PC1").1
      ⟨⟨"u1", "a@x", "pw", "patient", none⟩, by decide, rfl⟩
  · exact (c2_signup_failures _ "p9" "u9" "b@x" "pw" "patient" "nm" "PC1").2.1
      (by decide) rfl ⟨⟨"p1", "PC1", "nm", [], none, none⟩, by decide, rfl⟩
  · exact (c2_signup_failures _ "p9" "u9" "c@x" "pw" "doctor" "nm" "PC1").2.2
      (by decide) rfl (by decide)

/-- C3: when the requested patient exists (with a well-formed stored
ObjectId, as every stored document id is) and the doctor's assigned-patient
reference differs from the requested id, both the prescriptions-list
endpoint and the AI-insights endpoint respond "Unauthorized" and render
nothing. -/
theorem c3_ownership_checks (db : DB) (user : User) (pid : String)
    (patient : Patient)
    (hfound : findPatient db pid = some patient)
    (hvalid : isValidObjectId pid = true)
    (hmismatch : jsString user.patient ≠ pid) :
    prescriptionsListHandler db user pid = .send "Unauthorized"
    ∧ aiInsightsHandler db user pid = .send "Unauthorized" := by
  have hfind : db.patients.find? (fun q => q.id == pid) = some patient := hfound
  have hid := List.find?_some hfind
  have hid2 : patient.id = pid := by simpa using hid
  have hbeq : (jsString user.patient == patient.id) = false := by
    rw [hid2]
    simpa using hmismatch
  constructor
  · unfold prescriptionsListHandler
    rw [hvalid, hfound]
    simp [hbeq]
  · unfold aiInsightsHandler
    rw [hfound]
    simp [hbeq]

/-- Witness for C3: a doctor assigned to one patient requesting another. -/
theorem c3_ownership_checks_witness :
    prescriptionsListHandler
        ⟨[], [⟨"aaaaaaaaaaaaaaaaaaaaaaaa", "PC1", "nm", [], none, none⟩], [], []⟩
        ⟨"d1", "d@x", "pw", "doctor", some "bbbbbbbbbbbbbbbbbbbbbbbb"⟩
        "aaaaaaaaaaaaaaaaaaaaaaaa" = .send "Unauthorized"
    ∧ aiInsightsHandler
        ⟨[], [⟨"aaaaaaaaaaaaaaaaaaaaaaaa", "PC1", "nm", [], none, none⟩], [], []⟩
        ⟨"d1", "d@x", "pw", "doctor", some "bbbbbbbbbbbbbbbbbbbbbbbb"⟩
        "aaaaaaaaaaaaaaaaaaaaaaaa" = .send "Unauthorized" :=
  c3_ownership_checks _ _ _
    ⟨"aaaaaaaaaaaaaaaaaaaaaaaa", "PC1", "nm", [], none, none⟩
    (by decide) (by decide) (by decide)

/-- C4 counterexample: the path id "undefined" is syntactically invalid,
yet the handler answers with a redirect to /dashboard, not a 400-class
response. -/
theorem c4_counterexample :
    isValidObjectId "undefined" = false
    ∧ (patientDetailHandler ⟨[], [], [], []⟩ "undefined").1 = .redirect "/dashboard"
    ∧ is400Class (patientDetailHandler ⟨[], [], [], []⟩ "undefined").1 = false := by
  refine ⟨by decide, by decide, by decide⟩

/-- C4 (amended): an authenticated request to GET /patient/:id with a
syntactically invalid path id performs no database lookup; it receives a
400-class response unless the id is empty or the literal string
"undefined", in which case the handler redirects to /dashboard. -/
theorem c4_invalid_id (db : DB) (id : String)
    (hinv : isValidObjectId id = false) :
    (patientDetailHandler db id).2 = 0
    ∧ (id ≠ "" → id ≠ "undefined" →
        (patientDetailHandler db id).1 = .status 400 "Invalid patient ID")
    ∧ (id = "" ∨ id = "undefined" →
        (patientDetailHandler db id).1 = .redirect "/dashboard") := by
  by_cases h1 : id = ""
  · simp [patientDetailHandler, h1]
  · by_cases h2 : id = "undefined"
    · simp [patientDetailHandler, h1, h2]
    · simp [patientDetailHandler, h1, h2, hinv]

/-- Witness for C4 (amended): the invalid ids "zzz" and "undefined". -/
theorem c4_invalid_id_witness :
    (patientDetailHandler ⟨[], [], [], []⟩ "zzz").2 = 0
    ∧ (patientDetailHandler ⟨[], [], [], []⟩ "zzz").1 = .status 400 "Invalid patient ID"
    ∧ (patientDetailHandler ⟨[], [], [], []⟩ "undefined").1 = .redirect "/dashboard" :=
  ⟨(c4_invalid_id ⟨[], [], [], []⟩ "zzz" (by decide)).1,
   (c4_invalid_id ⟨[], [], [], []⟩ "zzz" (by decide)).2.1 (by decide) (by decide),
   (c4_invalid_id ⟨[], [], [], []⟩ "undefined" (by decide)).2.2 (Or.inr rfl)⟩

/-- After mapping the id-match update over a medicine list that contains a
match, looking up the id finds the updated document. -/
theorem find?_after_update (l : List Medicine) (mid : String) (med2 : Medicine)
    (h2 : (med2.id == mid) = true) (med : Medicine)
    (hfound : l.find? (fun m => m.id == mid) = some med) :
    (l.map (fun m => if m.id == mid then med2 else m)).find?
      (fun m => m.id == mid) = some med2 := by
  induction l with
  | nil => simp at hfound
  | cons a l ih =>
    by_cases ha : (a.id == mid) = true
    · simp only [List.map_cons]
      rw [if_pos ha]
      exact List.find?_cons_of_pos _ h2
    · have hfound2 : l.find? (fun m => m.id == mid) = some med := by
        rw [List.find?_cons_of_neg] at hfound
        · exact hfound
        · simpa using ha
      simp only [List.map_cons]
      rw [if_neg (by simpa using ha)]
      rw [List.find?_cons_of_neg _ (by simpa using ha)]
      exact ih hfound2

/-- After filtering out the id, looking up the id finds nothing. -/
theorem find?_after_delete (l : List Medicine) (mid : String) :
    (l.filter (fun m => !(m.id == mid))).find? (fun m => m.id == mid) = none := by
  rw [List.find?_eq_none]
  intro x hx
  have := (List.mem_filter.mp hx).2
  simpa using this

/-- C6: a medicine update that succeeds redirects to the literal,
un-interpolated path template (a constant string, independent of every
request datum), while still overwriting the four mutable fields of the
medicine; a medicine delete likewise redirects to the same literal template
while still removing the medicine by id. -/
theorem c6_literal_redirects (db : DB) (mid : String) (form : MedicineForm)
    (med : Medicine) (hfound : findMedicine db mid = some med) :
    (updateMedicineHandler db mid form).1 = .redirect literalMedRedirect
    ∧ findMedicine (updateMedicineHandler db mid form).2 mid =
        some { med with name := form.name, dosesRemaining := form.dosesRemaining,
                        frequency := form.frequency, reason := form.reason }
    ∧ (deleteMedicineHandler db mid).1 = .redirect literalMedRedirect
    ∧ findMedicine (deleteMedicineHandler db mid).2 mid = none := by
  have hfind : db.medicines.find? (fun m => m.id == mid) = some med := hfound
  have hid := List.find?_some hfind
  have hid2 : med.id = mid := by simpa using hid
  refine ⟨?_, ?_, ?_, ?_⟩
  · unfold updateMedicineHandler
    rw [hfound]
  · unfold updateMedicineHandler
    rw [hfound]
    exact find?_after_update db.medicines mid _ (by simpa using hid2) med hfind
  · rfl
  · exact find?_after_delete db.medicines mid

/-- Witness for C6 at a concrete one-medicine database. -/
theorem c6_literal_redirects_witness :
    (updateMedicineHandler ⟨[], [], [⟨"m1", "Old", 1, "od", "r", none⟩], []⟩
        "m1" ⟨"New", 2, "bd", "r2"⟩).1 = .redirect literalMedRedirect
    ∧ findMedicine (updateMedicineHandler ⟨[], [], [⟨"m1", "Old", 1, "od", "r", none⟩], []⟩
        "m1" ⟨"New", 2, "bd", "r2"⟩).2 "m1" = some ⟨"m1", "New", 2, "bd", "r2", none⟩
    ∧ (deleteMedicineHandler ⟨[], [], [⟨"m1", "Old", 1, "od", "r", none⟩], []⟩ "m1").1
        = .redirect literalMedRedirect
    ∧ findMedicine (deleteMedicineHandler ⟨[], [], [⟨"m1", "Old", 1, "od", "r", none⟩], []⟩
        "m1").2 "m1" = none :=
  c6_literal_redirects ⟨[], [], [⟨"m1", "Old", 1, "od", "r", none⟩], []⟩
    "m1" ⟨"New", 2, "bd", "r2"⟩ ⟨"m1", "Old", 1, "od", "r", none⟩ (by decide)

/-- C7: on a doctor-dashboard visit whose linked patient exists, if the
patient has no assignedDoctor the handler persists exactly the
assignedDoctor field (set to the current doctor id) on that patient and
changes nothing else in the database; if assignedDoctor is already set, the
database — in particular that patient record — is left entirely unchanged. -/
theorem c7_dashboard_assignment (db : DB) (user : User) (pid : String)
    (patient : Patient)
    (href : user.patient = some pid)
    (hfound : findPatient db pid = some patient) :
    (patient.assignedDoctor = none →
      (doctorDashboardHandler db user).2 =
        { db with patients := db.patients.map (fun p =>
            if p.id == patient.id then { p with assignedDoctor := some user.id } else p) })
    ∧ (∀ d, patient.assignedDoctor = some d →
        (doctorDashboardHandler db user).2 = db) := by
  constructor
  · intro hnone
    unfold doctorDashboardHandler
    rw [href]
    simp only [Option.some_bind]
    rw [hfound]
    simp [hnone, saveAssignedDoctor]
  · intro d hsome
    unfold doctorDashboardHandler
    rw [href]
    simp only [Option.some_bind]
    rw [hfound]
    simp [hsome]

/-- Witness for C7: an unassigned and an already-assigned patient. -/
theorem c7_dashboard_assignment_witness :
    (doctorDashboardHandler
        ⟨[], [⟨"p1", "PC1", "nm", [], none, none⟩], [], []⟩
        ⟨"d1", "d@x", "pw", "doctor", some "p1"⟩).2 =
      ⟨[], [⟨"p1", "PC1", "nm", [], none, some "d1"⟩], [], []⟩
    ∧ (doctorDashboardHandler
        ⟨[], [⟨"p1", "PC1", "nm", [], none, some "d0"⟩], [], []⟩
        ⟨"d1", "d@x", "pw", "doctor", some "p1"⟩).2 =
      ⟨[], [⟨"p1", "PC1", "nm", [], none, some "d0"⟩], [], []⟩ := by
  constructor
  · rw [(c7_dashboard_assignment
      ⟨[], [⟨"p1", "PC1", "nm", [], none, none⟩], [], []⟩
      ⟨"d1", "d@x", "pw", "doctor", some "p1"⟩ "p1"
      ⟨"p1", "PC1", "nm", [], none, none⟩ rfl (by decide)).1 rfl]
    decide
  · exact (c7_dashboard_assignment
      ⟨[], [⟨"p1", "PC1", "nm", [], none, some "d0"⟩], [], []⟩
      ⟨"d1", "d@x", "pw", "doctor", some "p1"⟩ "p1"
      ⟨"p1", "PC1", "nm", [], none, some "d0"⟩ rfl (by decide)).2 "d0" rfl

/-- C8: a request to GET /patient/:id/medicines whose id resolves to no
Patient dereferences the null patient before the existence check, so the
handler throws and never reaches the 404 branch. -/
theorem c8_null_deref (db : DB) (pid : String)
    (hmissing : findPatient db pid = none) :
    patientMedicinesHandler db pid =
      Except.error "TypeError: cannot read _id of null" := by
  unfold patientMedicinesHandler
  rw [hmissing]
  rfl

/-- Witness for C8: the empty database. -/
theorem c8_null_deref_witness :
    patientMedicinesHandler ⟨[], [], [], []⟩ "p1" =
      Except.error "TypeError: cannot read _id of null" :=
  c8_null_deref ⟨[], [], [], []⟩ "p1" (by decide)

/-- C9: creating a Medicine through POST /doctor/patient/:id/medicines
changes no Patient document (and no User or Prescription); since the doctor
dashboard lists medicines by membership of their id in patient.medicines,
the new medicine (whose fresh id no patient document lists) never appears
there. -/
theorem c9_create_medicine_frame (db : DB) (newId pid : String)
    (form : MedicineForm) :
    (createMedicineHandler db newId pid form).2.patients = db.patients
    ∧ (createMedicineHandler db newId pid form).2.users = db.users
    ∧ (createMedicineHandler db newId pid form).2.prescriptions = db.prescriptions
    ∧ ∀ patient : Patient, patient.medicines.contains newId = false →
        ∀ m ∈ dashboardMedicines (createMedicineHandler db newId pid form).2 patient,
          m.id ≠ newId := by
  refine ⟨rfl, rfl, rfl, ?_⟩
  intro patient hfresh m hm hmid
  have := (List.mem_filter.mp hm).2
  rw [hmid] at this
  rw [hfresh] at this
  exact Bool.false_ne_true this

/-- Witness for C9 at a concrete database and patient. -/
theorem c9_create_medicine_frame_witness :
    (createMedicineHandler ⟨[], [], [], []⟩ "m9" "p1" ⟨"N", 1, "od", "r"⟩).2.patients = []
    ∧ ∀ m ∈ dashboardMedicines
        (createMedicineHandler ⟨[], [], [], []⟩ "m9" "p1" ⟨"N", 1, "od", "r"⟩).2
        ⟨"p1", "PC1", "nm", [], none, none⟩, m.id ≠ "m9" :=
  ⟨(c9_create_medicine_frame ⟨[], [], [], []⟩ "m9" "p1" ⟨"N", 1, "od", "r"⟩).1,
   (c9_create_medicine_frame ⟨[], [], [], []⟩ "m9" "p1" ⟨"N", 1, "od", "r"⟩).2.2.2
     ⟨"p1", "PC1", "nm", [], none, none⟩ (by decide)⟩

/-- C10: the prescription-create endpoint performs no ownership check: for
every doctor identity and patient id (mismatched pairs included) it persists
the new Prescription and redirects; its response is never a plain-text send,
in particular never "Unauthorized". -/
theorem c10_no_ownership_check (db : DB) (newId : String) (now : Nat)
    (user : User) (pid : String) (lines : List PrescriptionLine)
    (notes : String) :
    (createPrescriptionHandler db newId now user pid lines notes).1 =
      .redirect ("/doctor/patient/" ++ pid ++ "/prescriptions")
    ∧ isSend (createPrescriptionHandler db newId now user pid lines notes).1 = false
    ∧ (createPrescriptionHandler db newId now user pid lines notes).2.prescriptions =
        db.prescriptions ++
          [{ id := newId, patient := some pid, doctor := some user.id,
             medicines := lines, notes := notes, date := now }] :=
  ⟨rfl, rfl, rfl⟩

end SmartMedicare
